import Mathlib

/-!
Verification of the pymaltego Transform message codec
(`src/pymaltego/messages.py`) against its specification.

The embedding models the XML layer as labeled trees (`Node`): the
`etree.tostring` / `etree.fromstring` byte serialization is out of scope
and treated as the identity on trees, per the spec's Document Node
section.  Python exceptions are modelled by the `PyError` type and
fallible code returns `Except PyError`.
-/

/-- Python exceptions that the decoders can raise, at the granularity of
the spec's error taxonomy.  `invalidInput` is the `ValueError` raised by
the `iselement` guard, `malformed` is `exceptions.MalformedMessageError`,
`numericFormat` is the `ValueError` raised by `int()` on a non-numeric
string.  `attributeErrorNone` is Python's `AttributeError` from calling a
method on `None`; `indexError` is `IndexError` from indexing an empty
list.  The latter two are not part of the spec's typed taxonomy. -/
inductive PyError where
  | invalidInput : PyError
  | malformed : String → PyError
  | numericFormat : String → PyError
  | attributeErrorNone : PyError
  | indexError : PyError
deriving DecidableEq, Repr

/-- Membership in the spec's typed error taxonomy (§7): `InvalidInputError`,
`MalformedMessageError`, `NumericFormatError`. -/
def PyError.isTypedError : PyError → Bool
  | .invalidInput => true
  | .malformed _ => true
  | .numericFormat _ => true
  | .attributeErrorNone => false
  | .indexError => false

/-- An XML element tree, as built by `pymaltego.entities.Node` /
`lxml.etree`: tag, attributes, ordered children, optional text. -/
inductive Node where
  | mk : String → List (String × String) → List Node → Option String → Node

def Node.tag : Node → String
  | .mk t _ _ _ => t

def Node.attrs : Node → List (String × String)
  | .mk _ a _ _ => a

def Node.children : Node → List Node
  | .mk _ _ c _ => c

def Node.text : Node → Option String
  | .mk _ _ _ t => t

/-- `node.attrib.get(key)` / `key in node.attrib`. -/
def Node.attrGet (n : Node) (key : String) : Option String :=
  (n.attrs.find? (fun p => p.1 = key)).map (fun p => p.2)

/-- `node.find(tag)`: first direct child with the given tag, as lxml's
`find` behaves on a plain tag path. -/
def Node.find (n : Node) (tag : String) : Option Node :=
  n.children.find? (fun c => c.tag = tag)

/-- A Python value handed to `from_node`: either an element tree or some
other object (string, number, ...), on which `etree.iselement` is false.
The payload of `other` only distinguishes non-element inputs. -/
inductive PyObject where
  | element : Node → PyObject
  | other : String → PyObject

/-- Modelled from the spec: the entity / UI-message collaborator codec
interface (§2, §9) — `pymaltego.entities` is not part of the sources under
verification.  A codec renders a value to a node and decodes a node,
possibly failing; collaborator errors propagate unchanged. -/
structure Codec (α : Type) where
  to_node : α → Node
  from_node : Node → Except PyError α

/-- A concrete codec on raw nodes (render and decode are the identity),
used to instantiate theorems at concrete inputs. -/
def nodeCodec : Codec Node where
  to_node := fun n => n
  from_node := fun n => Except.ok n

/-- Modelled from the spec: `constants.DEFAULT_SOFT_LIMIT` (§6); the
`pymaltego.constants` module is not among the sources. -/
def DEFAULT_SOFT_LIMIT : Int := 500

/-- Modelled from the spec: `constants.DEFAULT_HARD_LIMIT` (§6); the
`pymaltego.constants` module is not among the sources. -/
def DEFAULT_HARD_LIMIT : Int := 10000

/-- Python's `str.strip()`: drop leading and trailing whitespace.  Defined
by structural recursion over the character list. -/
def pyStrip (s : String) : String :=
  String.mk (((s.data.dropWhile Char.isWhitespace).reverse.dropWhile
    Char.isWhitespace).reverse)

/-- Python's `int(s)` on a string: optional surrounding whitespace,
optional sign, at least one decimal digit; otherwise `ValueError`, which
the taxonomy names a numeric-format error. -/
def pyInt (s : String) : Except PyError Int :=
  let t := pyStrip s
  let signDigits : Int × List Char :=
    match t.data with
    | '-' :: rest => (-1, rest)
    | '+' :: rest => (1, rest)
    | l => (1, l)
  if signDigits.2 ≠ [] ∧ signDigits.2.all Char.isDigit then
    Except.ok (signDigits.1 *
      Int.ofNat (signDigits.2.foldl (fun acc c => acc * 10 + (c.toNat - 48)) 0))
  else
    Except.error (PyError.numericFormat s)

/-- `int(node.attrib.get(key, default))` where `default` is already an
integer constant: a present attribute is parsed, a missing one yields the
default unchanged. -/
def intAttr (n : Node) (key : String) (default : Int) : Except PyError Int :=
  match n.attrGet key with
  | some s => pyInt s
  | none => Except.ok default

namespace MaltegoMessage

/-- `MaltegoMessage.from_node` (messages.py:21-38), parameterized by the
class name: reject non-elements, take the first child, check its tag. -/
def from_node (clsName : String) (obj : PyObject) : Except PyError Node :=
  match obj with
  | .other _ => Except.error PyError.invalidInput
  | .element node =>
    match node.children with
    | [] => Except.error PyError.indexError
    | child :: _ =>
      if child.tag = "Maltego" ++ clsName ++ "Message" then
        Except.ok child
      else
        Except.error (PyError.malformed (child.tag ++ " is invalid MaltegoMessage Type."))

/-- `MaltegoMessage.to_node` (messages.py:40-54), parameterized by the
class name and the UI-message codec: the inner tagged node, with a
`UIMessages` child exactly when the list is non-empty. -/
def to_node {υ : Type} (clsName : String) (U : Codec υ) (ui_messages : List υ) : Node :=
  Node.mk ("Maltego" ++ clsName ++ "Message") []
    (if ui_messages.isEmpty then []
     else [Node.mk "UIMessages" [] (ui_messages.map U.to_node) none])
    none

/-- `MaltegoMessage.to_xml` (messages.py:56-64) up to byte serialization:
wrap the inner node in the root `MaltegoMessage` tag. -/
def to_xml_node (inner : Node) : Node :=
  Node.mk "MaltegoMessage" [] [inner] none

end MaltegoMessage

/-- The field mapping of a request: a Python dict as an insertion-ordered
association list.  A value of `none` is Python's `None` (a `Field` whose
text was absent). -/
abbrev Fields := List (String × Option String)

/-- Python dict key membership `k in d`. -/
def Fields.containsKey : Fields → String → Bool
  | [], _ => false
  | p :: d, k => p.1 = k || Fields.containsKey d k

/-- Python dict assignment `d[k] = v`: overwrite in place when the key is
present, append otherwise. -/
def Fields.insertKey (d : Fields) (k : String) (v : Option String) : Fields :=
  if d.containsKey k then
    d.map (fun p => if p.1 = k then (k, v) else p)
  else
    d ++ [(k, v)]

/-- Python dict lookup: `some v` when the key is present (bound to `v`),
`none` when the key is missing. -/
def Fields.lookupKey : Fields → String → Option (Option String)
  | [], _ => none
  | p :: d, k => if p.1 = k then some p.2 else Fields.lookupKey d k

/-- The `for entity in ...: list.append(Codec.from_node(entity))` loops:
decode each node in order, aborting on the first failure. -/
def mapDecode {α : Type} (f : Node → Except PyError α) : List Node → Except PyError (List α)
  | [] => Except.ok []
  | n :: ns =>
    match f n with
    | Except.error e => Except.error e
    | Except.ok a =>
      match mapDecode f ns with
      | Except.error e => Except.error e
      | Except.ok as => Except.ok (a :: as)

/-- `TransformRequest`: the decoded request value (the instance fields set
by `MaltegoMessage.__init__` and `TransformRequest.from_node`).  The
`ui_messages` list of the base class is never touched by the request
decoder and stays empty, so it is omitted. -/
structure TransformRequest (ε : Type) where
  entities : List ε
  fields : Fields
  soft_limit : Int
  hard_limit : Int

namespace TransformRequest

/-- The `TransformFields` loop of `TransformRequest.from_node`
(messages.py:100-109): each child must carry a `Name` attribute, its value
is `field.text and field.text.strip()` (Python `None` stays `None`), and
dict assignment lets later duplicates overwrite earlier ones. -/
def parseFields : List Node → Fields → Except PyError Fields
  | [], acc => Except.ok acc
  | f :: rest, acc =>
    match f.attrGet "Name" with
    | none => Except.error (PyError.malformed "No \"Name\" attribute in Field")
    | some name => parseFields rest (acc.insertKey name (f.text.map pyStrip))

/-- The `Limits` handling of `TransformRequest.from_node`
(messages.py:111-118): absent tag keeps the `__init__` defaults; present
tag reads both attributes with `int(attrib.get(...))`.  The source's
fallback for `HardLimit` is `constants.DEFAULT_SOFT_LIMIT`
(messages.py:117), reproduced here verbatim. -/
def parseLimits (node : Node) : Except PyError (Int × Int) :=
  match node.find "Limits" with
  | none => Except.ok (DEFAULT_SOFT_LIMIT, DEFAULT_HARD_LIMIT)
  | some limit =>
    match intAttr limit "SoftLimit" DEFAULT_SOFT_LIMIT with
    | Except.error e => Except.error e
    | Except.ok soft =>
      match intAttr limit "HardLimit" DEFAULT_SOFT_LIMIT with
      | Except.error e => Except.error e
      | Except.ok hard => Except.ok (soft, hard)

/-- `TransformRequest.from_node` (messages.py:80-120): envelope check,
mandatory `Entities`, optional `TransformFields`, optional `Limits`. -/
def from_node {ε : Type} (E : Codec ε) (obj : PyObject) : Except PyError (TransformRequest ε) :=
  match MaltegoMessage.from_node "TransformRequest" obj with
  | Except.error e => Except.error e
  | Except.ok node =>
    match node.find "Entities" with
    | none => Except.error (PyError.malformed "Request requires \"Entities\" tag.")
    | some entity_nodes =>
      match mapDecode E.from_node entity_nodes.children with
      | Except.error e => Except.error e
      | Except.ok entities =>
        match (match node.find "TransformFields" with
               | none => Except.ok ([] : Fields)
               | some fs => parseFields fs.children []) with
        | Except.error e => Except.error e
        | Except.ok fields =>
          match parseLimits node with
          | Except.error e => Except.error e
          | Except.ok (soft, hard) =>
            Except.ok { entities := entities, fields := fields,
                        soft_limit := soft, hard_limit := hard }

end TransformRequest

/-- `TransformResponse`: entities plus UI messages (messages.py:127-135;
`ui_messages or []` makes an omitted list empty). -/
structure TransformResponse (ε υ : Type) where
  entities : List ε
  ui_messages : List υ

namespace TransformResponse

/-- `TransformResponse.from_node` (messages.py:137-161): envelope check,
mandatory `Entities`, then `node.find('UIMessages').getchildren()` — when
`UIMessages` is absent, `find` returns `None` and the `getchildren` call
raises `AttributeError`. -/
def from_node {ε υ : Type} (E : Codec ε) (U : Codec υ) (obj : PyObject) :
    Except PyError (TransformResponse ε υ) :=
  match MaltegoMessage.from_node "TransformResponse" obj with
  | Except.error e => Except.error e
  | Except.ok node =>
    match node.find "Entities" with
    | none => Except.error (PyError.malformed "Request requires \"Entities\" tag.")
    | some entity_nodes =>
      match mapDecode E.from_node entity_nodes.children with
      | Except.error e => Except.error e
      | Except.ok entities =>
        match node.find "UIMessages" with
        | none => Except.error PyError.attributeErrorNone
        | some message_nodes =>
          match mapDecode U.from_node message_nodes.children with
          | Except.error e => Except.error e
          | Except.ok ui_messages =>
            Except.ok { entities := entities, ui_messages := ui_messages }

/-- `TransformResponse.to_node` (messages.py:163-173): the base node (with
`UIMessages` iff non-empty), then an appended `Entities` child holding the
rendered entities in order. -/
def to_node {ε υ : Type} (E : Codec ε) (U : Codec υ) (r : TransformResponse ε υ) : Node :=
  match MaltegoMessage.to_node "TransformResponse" U r.ui_messages with
  | Node.mk t a c x =>
    Node.mk t a (c ++ [Node.mk "Entities" [] (r.entities.map E.to_node) none]) x

/-- The full rendered document of a response: `to_xml` up to byte
serialization. -/
def to_xml_node {ε υ : Type} (E : Codec ε) (U : Codec υ) (r : TransformResponse ε υ) : Node :=
  MaltegoMessage.to_xml_node (to_node E U r)

end TransformResponse

/-! Concrete sample documents, used to instantiate the theorems below at
concrete inputs. -/

/-- A sample entity node (under the raw-node codec, entities are nodes). -/
def sampleEntity : Node :=
  Node.mk "Entity" [("Type", "Person")] [] (some "Alice")

/-- A second sample entity node. -/
def sampleEntity2 : Node :=
  Node.mk "Entity" [("Type", "Location")] [] (some "Berlin")

/-- A sample UI-message node. -/
def sampleUIMessage : Node :=
  Node.mk "UIMessage" [("MessageType", "Inform")] [] (some "done")

/-- An `Entities` element with no children. -/
def emptyEntitiesNode : Node :=
  Node.mk "Entities" [] [] none

/-- `<Limits SoftLimit="10"/>`. -/
def limitsSoftOnly : Node :=
  Node.mk "Limits" [("SoftLimit", "10")] [] none

/-- `<Limits/>`: a `Limits` element with no attributes. -/
def limitsNoAttrs : Node :=
  Node.mk "Limits" [] [] none

/-- A full request document with an empty `Entities` element and the given
extra children of the inner message node. -/
def requestDoc (extra : List Node) : Node :=
  MaltegoMessage.to_xml_node
    (Node.mk "MaltegoTransformRequestMessage" [] (emptyEntitiesNode :: extra) none)

/-- `<Field Name="x"/>` — a field with absent text. -/
def fieldX : Node :=
  Node.mk "Field" [("Name", "x")] [] none

/-- `<Field Name="y">  v  </Field>` — a field with padded text. -/
def fieldY : Node :=
  Node.mk "Field" [("Name", "y")] [] (some "  v  ")

/-- A `Field` element with no `Name` attribute. -/
def fieldNoName : Node :=
  Node.mk "Field" [] [] (some "v")

/-- A `TransformFields` element holding `fieldX` and `fieldY`. -/
def tfFieldsNode : Node :=
  Node.mk "TransformFields" [] [fieldX, fieldY] none

/-- A request document whose `TransformFields` holds `fieldX` and `fieldY`. -/
def requestDocFields : Node :=
  requestDoc [tfFieldsNode]

/-- The value `requestDocFields` decodes to. -/
def decodedFieldsReq : TransformRequest Node :=
  { entities := [], fields := [("x", none), ("y", some "v")],
    soft_limit := 500, hard_limit := 10000 }

/-- A request document whose `TransformFields` holds a nameless field. -/
def requestDocBadField : Node :=
  requestDoc [Node.mk "TransformFields" [] [fieldNoName] none]

/-- An inner message node with the wrong tag. -/
def wrongInner : Node :=
  Node.mk "MaltegoWrongMessage" [] [] none

/-- A document whose inner tag is `MaltegoWrongMessage`. -/
def wrongDoc : Node :=
  MaltegoMessage.to_xml_node wrongInner

/-- A request inner node with no `Entities` child. -/
def reqInnerNoEntities : Node :=
  Node.mk "MaltegoTransformRequestMessage" [] [limitsNoAttrs] none

/-- A request document lacking the `Entities` tag. -/
def reqDocNoEntities : Node :=
  MaltegoMessage.to_xml_node reqInnerNoEntities

/-- A response inner node with `Entities` but no `UIMessages` child. -/
def respInnerNoUI : Node :=
  Node.mk "MaltegoTransformResponseMessage" [] [emptyEntitiesNode] none

/-- A response document lacking the `UIMessages` tag. -/
def respDocNoUI : Node :=
  MaltegoMessage.to_xml_node respInnerNoUI

/-! Shared helper lemmas. -/

/-- The formatted request tag is the literal tag. -/
theorem reqTag : ("Maltego" ++ "TransformRequest" ++ "Message" : String) = "MaltegoTransformRequestMessage" := rfl

/-- The formatted response tag is the literal tag. -/
theorem respTag : ("Maltego" ++ "TransformResponse" ++ "Message" : String) = "MaltegoTransformResponseMessage" := rfl

/-- Decoding a rendered list succeeds elementwise when the codec
round-trips. -/
theorem mapDecode_map_roundtrip {α : Type} (f : Node → Except PyError α) (g : α → Node)
    (h : ∀ a, f (g a) = Except.ok a) (l : List α) :
    mapDecode f (l.map g) = Except.ok l := by
  induction l with
  | nil => rfl
  | cons a as ih => simp [mapDecode, h, ih]

/-- Cons form of `mapDecode_map_roundtrip`, as produced by simp
normalization. -/
theorem mapDecode_map_roundtrip_cons {α : Type} (f : Node → Except PyError α) (g : α → Node)
    (h : ∀ a, f (g a) = Except.ok a) (a : α) (l : List α) :
    mapDecode f (g a :: List.map g l) = Except.ok (a :: l) := by
  simp [mapDecode, h, mapDecode_map_roundtrip f g h l]

/-- The `TransformFields` loop fails with the missing-`Name` error as soon
as any field in the list lacks a `Name` attribute. -/
theorem parseFields_error_of_noName (f : Node) (hf : f.attrGet "Name" = none) :
    ∀ (fs : List Node) (acc : Fields), f ∈ fs →
      TransformRequest.parseFields fs acc
        = Except.error (PyError.malformed "No \"Name\" attribute in Field") := by
  intro fs
  induction fs with
  | nil => intro acc h; cases h
  | cons g rest ih =>
    intro acc h
    rcases List.mem_cons.mp h with heq | hmem
    · subst heq
      simp [TransformRequest.parseFields, hf]
    · cases hg : g.attrGet "Name" with
      | none => simp [TransformRequest.parseFields, hg]
      | some m => simp [TransformRequest.parseFields, hg, ih _ hmem]

/-- Overwriting entries of key `k` leaves lookups of other keys unchanged. -/
theorem lookup_map_overwrite_ne (k k' : String) (v : Option String) (hk : k' ≠ k) (d : Fields) :
    Fields.lookupKey (d.map (fun p => if p.1 = k then (k, v) else p)) k'
      = Fields.lookupKey d k' := by
  induction d with
  | nil => rfl
  | cons p d ih =>
    by_cases hp : p.1 = k
    · simp [Fields.lookupKey, hp, Ne.symm hk, ih]
    · by_cases hq : p.1 = k'
      · simp [Fields.lookupKey, hp, hq, hk]
      · simp [Fields.lookupKey, hp, hq, ih]

/-- Overwriting entries of key `k` makes a lookup of `k` yield the new
value exactly when the key was present. -/
theorem lookup_map_overwrite_self (k : String) (v : Option String) (d : Fields) :
    Fields.lookupKey (d.map (fun p => if p.1 = k then (k, v) else p)) k
      = if Fields.containsKey d k then some v else none := by
  induction d with
  | nil => rfl
  | cons p d ih =>
    by_cases hp : p.1 = k
    · simp [Fields.lookupKey, Fields.containsKey, hp]
    · simp [Fields.lookupKey, Fields.containsKey, hp, ih]

/-- Lookup distributes over appending field lists. -/
theorem lookup_append_fields (d e : Fields) (k : String) :
    Fields.lookupKey (d ++ e) k
      = match Fields.lookupKey d k with
        | some v => some v
        | none => Fields.lookupKey e k := by
  induction d with
  | nil => rfl
  | cons p d ih =>
    by_cases hp : p.1 = k
    · simp [Fields.lookupKey, hp]
    · simp [Fields.lookupKey, hp, ih]

/-- A key that is not contained has no binding. -/
theorem lookup_none_of_not_contains (k : String) (d : Fields)
    (h : Fields.containsKey d k = false) : Fields.lookupKey d k = none := by
  induction d with
  | nil => rfl
  | cons p d ih =>
    by_cases hp : p.1 = k
    · simp [Fields.containsKey, hp] at h
    · have hd : Fields.containsKey d k = false := by
        by_cases hcd : Fields.containsKey d k = true
        · rw [Fields.containsKey, hcd] at h
          simp at h
        · simpa using hcd
      simp [Fields.lookupKey, hp, ih hd]

/-- Dict assignment binds the assigned key to the assigned value. -/
theorem insertKey_lookup_self (k : String) (v : Option String) (d : Fields) :
    (Fields.insertKey d k v).lookupKey k = some v := by
  by_cases hc : Fields.containsKey d k
  · simp [Fields.insertKey, hc, lookup_map_overwrite_self]
  · have hc' : Fields.containsKey d k = false := by simpa using hc
    simp [Fields.insertKey, hc', lookup_append_fields,
          lookup_none_of_not_contains k d hc', Fields.lookupKey]

/-- Dict assignment leaves the bindings of other keys unchanged. -/
theorem insertKey_lookup_ne (k k' : String) (v : Option String) (hk : k' ≠ k) (d : Fields) :
    (Fields.insertKey d k v).lookupKey k' = Fields.lookupKey d k' := by
  by_cases hc : Fields.containsKey d k
  · simp [Fields.insertKey, hc, lookup_map_overwrite_ne k k' v hk d]
  · have hc' : Fields.containsKey d k = false := by simpa using hc
    rw [Fields.insertKey]
    rw [hc']
    simp [lookup_append_fields]
    cases h : Fields.lookupKey d k' with
    | some w => simp
    | none => simp [Fields.lookupKey, Ne.symm hk]

/-- A successful `TransformFields` loop binds every `Name` that occurs in
the field list (or was already bound in the accumulator). -/
theorem parseFields_lookup_isSome (n : String) :
    ∀ (fs : List Node) (acc d : Fields),
      TransformRequest.parseFields fs acc = Except.ok d →
      ((∃ f ∈ fs, f.attrGet "Name" = some n) ∨ (Fields.lookupKey acc n).isSome = true) →
      (Fields.lookupKey d n).isSome = true := by
  intro fs
  induction fs with
  | nil =>
    intro acc d hok hdisj
    rcases hdisj with ⟨f, hf, _⟩ | hacc
    · cases hf
    · simp [TransformRequest.parseFields] at hok
      rw [← hok]
      exact hacc
  | cons g rest ih =>
    intro acc d hok hdisj
    cases hg : g.attrGet "Name" with
    | none => simp [TransformRequest.parseFields, hg] at hok
    | some m =>
      rw [TransformRequest.parseFields, hg] at hok
      apply ih _ _ hok
      rcases hdisj with ⟨f, hf, hfn⟩ | hacc
      · rcases List.mem_cons.mp hf with heq | hfr
        · subst heq
          rw [hg] at hfn
          have hmn : m = n := Option.some_injective _ hfn
          subst hmn
          right
          rw [insertKey_lookup_self]
          rfl
        · exact Or.inl ⟨f, hfr, hfn⟩
      · by_cases hmn : m = n
        · subst hmn
          right
          rw [insertKey_lookup_self]
          rfl
        · right
          rw [insertKey_lookup_ne m n _ (fun h => hmn h.symm)]
          exact hacc

/-- When every field named `n` carries text `t`, a successful
`TransformFields` loop binds `n` to the stripped `t`. -/
theorem parseFields_lookup_value (n : String) (t : Option String) :
    ∀ (fs : List Node) (acc d : Fields),
      TransformRequest.parseFields fs acc = Except.ok d →
      (∀ g ∈ fs, g.attrGet "Name" = some n → g.text = t) →
      ((∃ f ∈ fs, f.attrGet "Name" = some n) ∨
        Fields.lookupKey acc n = some (t.map pyStrip)) →
      Fields.lookupKey d n = some (t.map pyStrip) := by
  intro fs
  induction fs with
  | nil =>
    intro acc d hok _ hdisj
    rcases hdisj with ⟨f, hf, _⟩ | hacc
    · cases hf
    · simp [TransformRequest.parseFields] at hok
      rw [← hok]
      exact hacc
  | cons g rest ih =>
    intro acc d hok hall hdisj
    cases hg : g.attrGet "Name" with
    | none => simp [TransformRequest.parseFields, hg] at hok
    | some m =>
      rw [TransformRequest.parseFields, hg] at hok
      have hall' : ∀ g' ∈ rest, g'.attrGet "Name" = some n → g'.text = t :=
        fun g' hmem => hall g' (List.mem_cons_of_mem g hmem)
      apply ih _ _ hok hall'
      by_cases hmn : m = n
      · subst hmn
        have hgt : g.text = t := hall g (List.mem_cons_self g rest) hg
        right
        rw [insertKey_lookup_self, hgt]
      · rcases hdisj with ⟨f, hf, hfn⟩ | hacc
        · rcases List.mem_cons.mp hf with heq | hfr
          · subst heq
            rw [hg] at hfn
            exact absurd (Option.some_injective _ hfn) hmn
          · exact Or.inl ⟨f, hfr, hfn⟩
        · right
          rw [insertKey_lookup_ne m n _ (fun h => hmn h.symm)]
          exact hacc

/-! Theorems for the claims. -/

/-- C1: the claim says a `Limits` element with no attributes yields
`hard_limit = 10000` and `<Limits SoftLimit="10"/>` yields
`hard_limit = 10000`.  The code (messages.py:117) falls back to
`DEFAULT_SOFT_LIMIT` for a missing `HardLimit` attribute, so both decodes
yield `hard_limit = 500`, diverging from the claim whenever the `Limits`
tag is present without `HardLimit`. -/
theorem C1_hard_limit_falls_back_to_soft_default :
    (TransformRequest.from_node nodeCodec (PyObject.element (requestDoc [limitsNoAttrs]))).map
        (fun r => (r.soft_limit, r.hard_limit)) = Except.ok ((500 : Int), (500 : Int))
    ∧ (TransformRequest.from_node nodeCodec (PyObject.element (requestDoc [limitsSoftOnly]))).map
        (fun r => (r.soft_limit, r.hard_limit)) = Except.ok ((10 : Int), (500 : Int)) :=
  ⟨rfl, rfl⟩

/-- C9: a non-element input to any `from_node` fails with the invalid-input
error of the taxonomy (the `iselement` guard), for every message kind. -/
theorem C9_non_element_input_invalid {ε υ : Type} (E : Codec ε) (U : Codec υ)
    (clsName s : String) :
    MaltegoMessage.from_node clsName (PyObject.other s) = Except.error PyError.invalidInput
    ∧ TransformRequest.from_node E (PyObject.other s) = Except.error PyError.invalidInput
    ∧ TransformResponse.from_node E U (PyObject.other s) = Except.error PyError.invalidInput
    ∧ PyError.isTypedError PyError.invalidInput = true :=
  ⟨rfl, rfl, rfl, rfl⟩

/-- C10: an element with zero children makes every `from_node` fail with an
index-out-of-range error (from `getchildren()[0]`), whatever the root tag,
attributes or text, before any inner-tag validation; that error is outside
the typed taxonomy. -/
theorem C10_empty_children_index_error {ε υ : Type} (E : Codec ε) (U : Codec υ)
    (clsName t : String) (attrs : List (String × String)) (txt : Option String) :
    MaltegoMessage.from_node clsName (PyObject.element (Node.mk t attrs [] txt))
        = Except.error PyError.indexError
    ∧ TransformRequest.from_node E (PyObject.element (Node.mk t attrs [] txt))
        = Except.error PyError.indexError
    ∧ TransformResponse.from_node E U (PyObject.element (Node.mk t attrs [] txt))
        = Except.error PyError.indexError
    ∧ PyError.isTypedError PyError.indexError = false :=
  ⟨rfl, rfl, rfl, rfl⟩

/-- C5: a request decode of a document whose first child under the root
carries any tag other than `MaltegoTransformRequestMessage` fails with
`MalformedMessageError`. -/
theorem C5_wrong_inner_tag_malformed {ε : Type} (E : Codec ε) (root inner : Node)
    (rest : List Node)
    (h1 : root.children = inner :: rest)
    (h2 : inner.tag ≠ "MaltegoTransformRequestMessage") :
    TransformRequest.from_node E (PyObject.element root)
      = Except.error (PyError.malformed (inner.tag ++ " is invalid MaltegoMessage Type."))
    ∧ PyError.isTypedError (PyError.malformed (inner.tag ++ " is invalid MaltegoMessage Type."))
      = true := by
  refine ⟨?_, rfl⟩
  simp [TransformRequest.from_node, MaltegoMessage.from_node, h1, reqTag, h2]

/-- C5 witness: the concrete document with inner tag `MaltegoWrongMessage`. -/
theorem C5_wrong_inner_tag_malformed_witness :
    TransformRequest.from_node nodeCodec (PyObject.element wrongDoc)
      = Except.error (PyError.malformed (wrongInner.tag ++ " is invalid MaltegoMessage Type."))
    ∧ PyError.isTypedError (PyError.malformed (wrongInner.tag ++ " is invalid MaltegoMessage Type."))
      = true :=
  C5_wrong_inner_tag_malformed nodeCodec wrongDoc wrongInner [] rfl (by decide)

/-- C6: a request decode with the correct inner tag but no child tagged
`Entities` fails with `MalformedMessageError`, regardless of the other
content of the document. -/
theorem C6_missing_entities_malformed {ε : Type} (E : Codec ε) (root inner : Node)
    (rest : List Node)
    (h1 : root.children = inner :: rest)
    (h2 : inner.tag = "MaltegoTransformRequestMessage")
    (h3 : inner.find "Entities" = none) :
    TransformRequest.from_node E (PyObject.element root)
      = Except.error (PyError.malformed "Request requires \"Entities\" tag.")
    ∧ PyError.isTypedError (PyError.malformed "Request requires \"Entities\" tag.") = true := by
  refine ⟨?_, rfl⟩
  simp [TransformRequest.from_node, MaltegoMessage.from_node, h1, reqTag, h2, h3]

/-- C6 witness: the concrete request document lacking `Entities`. -/
theorem C6_missing_entities_malformed_witness :
    TransformRequest.from_node nodeCodec (PyObject.element reqDocNoEntities)
      = Except.error (PyError.malformed "Request requires \"Entities\" tag.")
    ∧ PyError.isTypedError (PyError.malformed "Request requires \"Entities\" tag.") = true :=
  C6_missing_entities_malformed nodeCodec reqDocNoEntities reqInnerNoEntities [] rfl rfl rfl

/-- C2 counterexample: a response built from one entity and zero UI
messages does not round-trip — decoding its rendered document fails with
the `AttributeError` from the missing `UIMessages` element, so no value
with the original sequences is returned. -/
theorem C2_counterexample :
    TransformResponse.from_node nodeCodec nodeCodec
      (PyObject.element (TransformResponse.to_xml_node nodeCodec nodeCodec
        { entities := [sampleEntity], ui_messages := ([] : List Node) }))
      = Except.error PyError.attributeErrorNone := rfl

/-- C2 (amended): for every response whose UI-message list is non-empty
(M ≥ 1, any N ≥ 0), and any entity and UI-message codecs satisfying their
round-trip contract, decoding the rendered document returns the original
entity and UI-message sequences in order. -/
theorem C2_roundtrip {ε υ : Type} (E : Codec ε) (U : Codec υ)
    (hE : ∀ e, E.from_node (E.to_node e) = Except.ok e)
    (hU : ∀ u, U.from_node (U.to_node u) = Except.ok u)
    (r : TransformResponse ε υ) (hM : r.ui_messages ≠ []) :
    TransformResponse.from_node E U (PyObject.element (TransformResponse.to_xml_node E U r))
      = Except.ok r := by
  obtain ⟨es, us⟩ := r
  cases us with
  | nil => exact absurd rfl hM
  | cons u us =>
    simp [TransformResponse.to_xml_node, MaltegoMessage.to_xml_node, TransformResponse.to_node,
          MaltegoMessage.to_node, TransformResponse.from_node, MaltegoMessage.from_node,
          Node.find, Node.children, Node.tag, List.find?,
          mapDecode_map_roundtrip E.from_node E.to_node hE,
          mapDecode_map_roundtrip U.from_node U.to_node hU,
          mapDecode_map_roundtrip_cons U.from_node U.to_node hU]

/-- C2 witness: a concrete response with two entities and one UI message
round-trips under the raw-node codec. -/
theorem C2_roundtrip_witness :
    TransformResponse.from_node nodeCodec nodeCodec
      (PyObject.element (TransformResponse.to_xml_node nodeCodec nodeCodec
        { entities := [sampleEntity, sampleEntity2], ui_messages := [sampleUIMessage] }))
      = Except.ok { entities := [sampleEntity, sampleEntity2],
                    ui_messages := [sampleUIMessage] } :=
  C2_roundtrip nodeCodec nodeCodec (fun _ => rfl) (fun _ => rfl) _ (by simp)

/-- C3: a response decode whose inner node passes the envelope check and
entity decoding but has no `UIMessages` child fails with the
null-dereference-class `AttributeError`, which is outside the typed
taxonomy, and returns no value. -/
theorem C3_missing_uimessages {ε υ : Type} (E : Codec ε) (U : Codec υ)
    (root inner entsNode : Node) (rest : List Node) (es : List ε)
    (h1 : root.children = inner :: rest)
    (h2 : inner.tag = "MaltegoTransformResponseMessage")
    (h3 : inner.find "Entities" = some entsNode)
    (h4 : mapDecode E.from_node entsNode.children = Except.ok es)
    (h5 : inner.find "UIMessages" = none) :
    TransformResponse.from_node E U (PyObject.element root)
      = Except.error PyError.attributeErrorNone
    ∧ PyError.isTypedError PyError.attributeErrorNone = false := by
  refine ⟨?_, rfl⟩
  simp [TransformResponse.from_node, MaltegoMessage.from_node, h1, respTag, h2, h3, h4, h5]

/-- C3 witness: the concrete response document lacking `UIMessages`. -/
theorem C3_missing_uimessages_witness :
    TransformResponse.from_node nodeCodec nodeCodec (PyObject.element respDocNoUI)
      = Except.error PyError.attributeErrorNone
    ∧ PyError.isTypedError PyError.attributeErrorNone = false :=
  C3_missing_uimessages nodeCodec nodeCodec respDocNoUI respInnerNoUI emptyEntitiesNode [] []
    rfl rfl rfl rfl rfl

/-- C4: a rendered response carries a `UIMessages` element iff its
ui_messages list is non-empty, always carries an `Entities` element, and
with entities `[e1, e2]` and no UI messages its children are exactly one
`Entities` element holding the two rendered entities in order. -/
theorem C4_render_shape {ε υ : Type} (E : Codec ε) (U : Codec υ)
    (r : TransformResponse ε υ) (e1 e2 : ε) :
    (((TransformResponse.to_node E U r).children.any (fun c => c.tag = "UIMessages")) = true
        ↔ r.ui_messages ≠ [])
    ∧ ((TransformResponse.to_node E U r).children.any (fun c => c.tag = "Entities")) = true
    ∧ (TransformResponse.to_node E U { entities := [e1, e2], ui_messages := ([] : List υ) }).children
        = [Node.mk "Entities" [] [E.to_node e1, E.to_node e2] none] := by
  obtain ⟨es, us⟩ := r
  refine ⟨?_, ?_, ?_⟩
  · cases us <;>
      simp [TransformResponse.to_node, MaltegoMessage.to_node, Node.children, Node.tag]
  · cases us <;>
      simp [TransformResponse.to_node, MaltegoMessage.to_node, Node.children, Node.tag]
  · simp [TransformResponse.to_node, MaltegoMessage.to_node, Node.children]

/-- C7: a request decode that reaches a `TransformFields` element one of
whose children lacks a `Name` attribute fails with
`MalformedMessageError`. -/
theorem C7_field_without_name {ε : Type} (E : Codec ε)
    (root inner entsNode fsNode f : Node) (rest : List Node) (es : List ε)
    (h1 : root.children = inner :: rest)
    (h2 : inner.tag = "MaltegoTransformRequestMessage")
    (h3 : inner.find "Entities" = some entsNode)
    (h4 : mapDecode E.from_node entsNode.children = Except.ok es)
    (h5 : inner.find "TransformFields" = some fsNode)
    (h6 : f ∈ fsNode.children)
    (h7 : f.attrGet "Name" = none) :
    TransformRequest.from_node E (PyObject.element root)
      = Except.error (PyError.malformed "No \"Name\" attribute in Field")
    ∧ PyError.isTypedError (PyError.malformed "No \"Name\" attribute in Field") = true := by
  refine ⟨?_, rfl⟩
  simp [TransformRequest.from_node, MaltegoMessage.from_node, h1, reqTag, h2, h3, h4, h5,
        parseFields_error_of_noName f h7 fsNode.children [] h6]

/-- C7 witness: the concrete request whose single field has no `Name`. -/
theorem C7_field_without_name_witness :
    TransformRequest.from_node nodeCodec (PyObject.element requestDocBadField)
      = Except.error (PyError.malformed "No \"Name\" attribute in Field")
    ∧ PyError.isTypedError (PyError.malformed "No \"Name\" attribute in Field") = true :=
  C7_field_without_name nodeCodec requestDocBadField
    (Node.mk "MaltegoTransformRequestMessage" []
      [emptyEntitiesNode, Node.mk "TransformFields" [] [fieldNoName] none] none)
    emptyEntitiesNode (Node.mk "TransformFields" [] [fieldNoName] none) fieldNoName [] []
    rfl rfl rfl rfl rfl (List.mem_singleton.mpr rfl) rfl

/-- C8: on a successful request decode, every `TransformFields` child that
carries `Name="n"` puts `n` into the fields mapping; and (when all fields
named `n` agree on their text, as in particular when `n` is unique) the
bound value is the whitespace-stripped text, with absent text bound as an
empty value (`none`) rather than the key being missing. -/
theorem C8_field_with_name_inserted {ε : Type} (E : Codec ε)
    (root inner fsNode f : Node) (rest : List Node) (n : String)
    (inst : TransformRequest ε)
    (h1 : root.children = inner :: rest)
    (h2 : inner.tag = "MaltegoTransformRequestMessage")
    (h5 : inner.find "TransformFields" = some fsNode)
    (h6 : f ∈ fsNode.children)
    (h7 : f.attrGet "Name" = some n)
    (hok : TransformRequest.from_node E (PyObject.element root) = Except.ok inst) :
    (Fields.lookupKey inst.fields n).isSome = true
    ∧ ((∀ g ∈ fsNode.children, g.attrGet "Name" = some n → g.text = f.text) →
        Fields.lookupKey inst.fields n = some (f.text.map pyStrip)) := by
  simp only [TransformRequest.from_node, MaltegoMessage.from_node, h1, reqTag, h2,
             if_true, eq_self_iff_true] at hok
  cases hents : inner.find "Entities" with
  | none =>
    simp [hents] at hok
  | some entsNode =>
    simp only [hents] at hok
    cases hmd : mapDecode E.from_node entsNode.children with
    | error e =>
      simp [hmd] at hok
    | ok es =>
      simp only [hmd, h5] at hok
      cases hpf : TransformRequest.parseFields fsNode.children [] with
      | error e =>
        simp [hpf] at hok
      | ok flds =>
        simp only [hpf] at hok
        cases hpl : TransformRequest.parseLimits inner with
        | error e =>
          simp [hpl] at hok
        | ok sh =>
          obtain ⟨s, h⟩ := sh
          simp only [hpl, Except.ok.injEq] at hok
          subst hok
          constructor
          · exact parseFields_lookup_isSome n fsNode.children [] flds hpf
              (Or.inl ⟨f, h6, h7⟩)
          · intro hall
            exact parseFields_lookup_value n f.text fsNode.children [] flds hpf hall
              (Or.inl ⟨f, h6, h7⟩)

/-- C8 witness: in the concrete request, `<Field Name="x"/>` with absent
text binds key `x` to an empty value (the key is present, not missing). -/
theorem C8_field_with_name_inserted_witness :
    (Fields.lookupKey decodedFieldsReq.fields "x").isSome = true
    ∧ ((∀ g ∈ tfFieldsNode.children, g.attrGet "Name" = some "x" → g.text = fieldX.text) →
        Fields.lookupKey decodedFieldsReq.fields "x" = some (fieldX.text.map pyStrip)) :=
  C8_field_with_name_inserted nodeCodec requestDocFields
    (Node.mk "MaltegoTransformRequestMessage" [] [emptyEntitiesNode, tfFieldsNode] none)
    tfFieldsNode fieldX [] "x" decodedFieldsReq
    rfl rfl rfl (by simp [tfFieldsNode, Node.children]) rfl rfl
